import Mathlib

/-!
Shallow embedding of the A.G.N.I. news-verification service (src/main.py).

External effects (the Gemini generative call, the Google Custom Search HTTP
call, wall-clock time) are modelled as oracle inputs: an environment value
records, for each outbound call the code makes, which outcome the outside
world produced (an exception, a missing/empty response, an unparsable body,
or a parsed JSON value).  Everything the code itself computes on these
outcomes is translated directly from the Python source.

Python strings are modelled as Lean strings; `len`, slicing `[:n]` and
`.strip()` are modelled on the underlying character list (`pyLen`, `pyTake`,
`pyStrip`), matching Python's code-point semantics.  Python floats arising
in this code are only ever compared and clamped against the constants
0.0, 0.3, 0.5, 1.0, so they are modelled as rationals.
-/

namespace AGNI

/-- JSON values as produced by Python `json.loads`: null, booleans, numbers,
strings, arrays, and objects (association lists; `json.loads` never yields
duplicate keys). -/
inductive Json where
  | null
  | bool (b : Bool)
  | num (q : ℚ)
  | str (s : String)
  | arr (elems : List Json)
  | obj (fields : List (String × Json))

/-- Python `dict.get(k)`: the value stored at key `k`, if any. -/
def jLookup (fields : List (String × Json)) (k : String) : Option Json :=
  (fields.lookup k)

/-- Python truthiness on JSON values: `None`, `False`, `0`, `""`, `[]`, `{}`
are falsy, everything else truthy. -/
def Json.isFalsy : Json → Bool
  | Json.null => true
  | Json.bool b => !b
  | Json.num q => q = 0
  | Json.str s => s = ""
  | Json.arr l => l.isEmpty
  | Json.obj f => f.isEmpty

/-- Python `len` on a string (number of code points). -/
def pyLen (s : String) : Nat := s.data.length

/-- Python slicing `s[:n]` (first `n` code points). -/
def pyTake (n : Nat) (s : String) : String := String.mk (s.data.take n)

/-- Python `s.strip()`: drop whitespace from both ends. -/
def pyStrip (s : String) : String :=
  String.mk (((s.data.dropWhile Char.isWhitespace).reverse.dropWhile
    Char.isWhitespace).reverse)

/-- The pydantic `SearchResult` model (src/main.py lines 98-102). -/
structure SearchResult where
  title : String
  link : String
  snippet : String
  source : String
deriving DecidableEq

/-- The dict returned by `verify_with_ai_and_search` as consumed by
`verify_news`: every return path of the function sets exactly these keys
(besides model-emitted extras such as `key_findings`, which the endpoint
never reads).  `reason` is kept as a JSON value because the repair step
keeps any truthy model-emitted value, string or not. -/
structure VerdictDict where
  classification : String
  reason : Json
  confidence : ℚ
  sources : List String
  search_results : List SearchResult

/-- The response dict built by the `verify_news` endpoint
(src/main.py lines 342-350 and 357-365). -/
structure VerificationResponse where
  classification : String
  reason : Json
  sources : List String
  search_results : List SearchResult
  confidence : ℚ
  timestamp : String
  processing_time : ℚ

/-- Outcome of one `model.generate_content` call, as observed by the code:
the call raises; or returns a falsy/empty-text response; or returns text
that fails `json.loads` after code-fence stripping; or returns text that
parses to the JSON value `j`. -/
inductive GenResponse where
  | raises
  | noText
  | unparsable
  | parsed (j : Json)

/-- Outcome of the search HTTP GET: any network or body-parsing exception,
or a completed response with a status code and (when the status is 200)
the parsed JSON body. -/
inductive SearchOutcome where
  | raises
  | httpResponse (status : Nat) (data : Json)

/-- One slot of the `asyncio.gather(..., return_exceptions=True)` join:
either an exception object stands in the slot, or the task ran
`search_google` to completion on the given outcome. -/
inductive SlotOutcome where
  | exn
  | ran (o : SearchOutcome)

/-- `NewsVerificationRequest.validate_text` (src/main.py lines 88-96).
Note the upper bound is checked on the raw `v`, the lower bound on
`v.strip()`. -/
def validate_text (v : String) : Except String String :=
  if v = "" ∨ pyStrip v = "" then Except.error "Text field cannot be empty"
  else if pyLen (pyStrip v) < 10 then
    Except.error "Text must be at least 10 characters long"
  else if pyLen v > 5000 then Except.error "Text cannot exceed 5000 characters"
  else Except.ok (pyStrip v)

/-- Whether `validate_text` accepts the request text. -/
def isAccepted (v : String) : Bool :=
  match validate_text v with
  | Except.ok _ => true
  | Except.error _ => false

/-- `extract_key_claims` (src/main.py lines 112-151).  With no Gemini key
it returns `[text]`; with a parsed non-empty JSON list it returns that
list; every other outcome falls back to `[text[:200]]`. -/
def extract_key_claims (geminiConfigured : Bool) (resp : GenResponse)
    (text : String) : List Json :=
  if geminiConfigured = false then [Json.str text]
  else
    match resp with
    | GenResponse.parsed (Json.arr l) =>
        if l.length > 0 then l else [Json.str (pyTake 200 text)]
    | _ => [Json.str (pyTake 200 text)]

/-- Source-domain derivation (src/main.py lines 178-180): take the
display-link (falling back to the link, then to the empty string) and
strip a leading `www.`. -/
def stripWww (source : String) : String :=
  if source.startsWith "www." then String.mk (source.data.drop 4) else source

/-- One iteration of the result loop (src/main.py lines 175-191): extract
title/link/snippet/source from a result item, or skip it.  An item that is
not a JSON object, or whose extracted fields are not strings, raises inside
the inner `try` (attribute error, `startswith` on a non-string, pydantic
validation) and is skipped. -/
def parseSearchItem (item : Json) : Option SearchResult :=
  match item with
  | Json.obj fields =>
    let rawSource := (jLookup fields "displayLink").getD
      ((jLookup fields "link").getD (Json.str ""))
    match rawSource, (jLookup fields "title").getD (Json.str ""),
        (jLookup fields "link").getD (Json.str ""),
        (jLookup fields "snippet").getD (Json.str "") with
    | Json.str source, Json.str title, Json.str link, Json.str snippet =>
        some { title := title, link := link, snippet := snippet,
               source := stripWww source }
    | _, _, _, _ => none
  | _ => none

/-- `data.get('items', [])` (src/main.py line 175), restricted to the case
where the items value is a JSON array.  A non-object `data` or a
non-iterable items value raises and is caught by the outer handler
(yielding `[]`), and an iterable non-array items value (a string or an
object) yields only skipped items; all of these produce `[]`, which is what
this function returns for every non-array case. -/
def getItems (data : Json) : List Json :=
  match data with
  | Json.obj fields =>
    match jLookup fields "items" with
    | some (Json.arr l) => l
    | _ => []
  | _ => []

/-- `search_google` (src/main.py lines 153-201).  The `query` and
`numResults` arguments only shape the outbound request, which the
`outcome` oracle answers; the returned list never depends on them. -/
def search_google (searchConfigured : Bool) (outcome : SearchOutcome)
    (query : String) (numResults : Nat) : List SearchResult :=
  if searchConfigured = false then []
  else
    match outcome with
    | SearchOutcome.raises => []
    | SearchOutcome.httpResponse status data =>
      if status = 200 then (getItems data).filterMap parseSearchItem
      else []

/-- The sentinel comparison `claim != "no verifiable claims"`
(src/main.py line 218); a non-string claim is never equal to the
sentinel. -/
def isSentinel : Json → Bool
  | Json.str s => s = "no verifiable claims"
  | _ => false

/-- The claims for which a search task is appended (src/main.py
lines 217-219): the first 3 claims, minus sentinels; each appended task is
`search_google(claim, 3)`. -/
def searchQueries (claims : List Json) : List Json :=
  (claims.take 3).filter (fun c => ! isSentinel c)

/-- The query string handed to `search_google` for a claim.  A non-string
claim makes the HTTP client raise while building the request, which the
slot's `SearchOutcome.raises` oracle value covers, so the placeholder is
immaterial (`search_google` ignores its query). -/
def queryOf : Json → String
  | Json.str s => s
  | _ => ""

/-- What one gather slot contributes to `all_search_results`
(src/main.py lines 222-225): an exception object contributes nothing
(`isinstance(results, list)` fails); a completed task contributes its
`search_google` result with per-claim limit 3. -/
def slotContribution (searchConfigured : Bool) (slot : SlotOutcome)
    (query : String) : List SearchResult :=
  match slot with
  | SlotOutcome.exn => []
  | SlotOutcome.ran o => search_google searchConfigured o query 3

/-- `all_search_results` after the gather join (src/main.py lines 214-225):
the concatenation, in claim submission order, of each slot's contribution.
When no task was issued the gather is skipped and the list stays empty,
which the empty range also yields. -/
def all_search_results (searchConfigured : Bool) (slots : Nat → SlotOutcome)
    (claims : List Json) : List SearchResult :=
  (List.range (searchQueries claims).length).flatMap
    (fun i => slotContribution searchConfigured (slots i)
      (queryOf ((searchQueries claims).getD i Json.null)))

/-- Default reason substituted for a falsy model-emitted reason
(src/main.py line 305). -/
def defaultReason : String := "Analysis completed with available information."

/-- Classification repair (src/main.py lines 295-297): any value other
than one of the three valid classification strings is coerced to
`Unverifiable`. -/
def repairClassification (v : Option Json) : String :=
  match v with
  | some (Json.str s) =>
    if s = "Verified" ∨ s = "Misinformation" ∨ s = "Unverifiable" then s
    else "Unverifiable"
  | _ => "Unverifiable"

/-- Confidence repair (src/main.py lines 299-302): a non-numeric value
becomes 0.5; a numeric value is clamped into [0, 1].  Python booleans pass
the `isinstance(..., (int, float))` test, with `float(True) = 1.0` and
`float(False) = 0.0`. -/
def repairConfidence (v : Option Json) : ℚ :=
  match v with
  | some (Json.num q) => max 0 (min 1 q)
  | some (Json.bool b) => if b then 1 else 0
  | _ => 1/2

/-- Reason repair (src/main.py lines 304-305): a missing or falsy reason is
replaced by the default; any truthy value is kept as emitted. -/
def repairReason (v : Option Json) : Json :=
  match v with
  | none => Json.str defaultReason
  | some j => if j.isFalsy then Json.str defaultReason else j

/-- Step 3 of `verify_with_ai_and_search` (src/main.py lines 230-327): the
verdict synthesis over the aggregated search results.  Paths: Gemini not
configured (confidence 0.3, first 5 results); model response parsed to a
JSON object (validate-and-repair, first 5 results); everything else —
call raised, falsy/empty response text, JSON decode failure, or a parsed
non-object on which `result.get` raises — lands on the final fallback
(confidence 0.3, first 3 results). -/
def synthesize (geminiConfigured : Bool) (resp : GenResponse)
    (agg : List SearchResult) : VerdictDict :=
  if geminiConfigured = false then
    { classification := "Unverifiable"
      reason := Json.str "AI analysis unavailable - API key not configured"
      sources := (agg.take 5).map SearchResult.link
      search_results := agg.take 5
      confidence := 3/10 }
  else
    match resp with
    | GenResponse.parsed (Json.obj fields) =>
      { classification := repairClassification (jLookup fields "classification")
        reason := repairReason (jLookup fields "reason")
        confidence := repairConfidence (jLookup fields "confidence")
        sources := (agg.take 5).map SearchResult.link
        search_results := agg.take 5 }
    | _ =>
      { classification := "Unverifiable"
        reason := Json.str "Unable to complete analysis due to technical limitations."
        sources := (agg.take 3).map SearchResult.link
        search_results := agg.take 3
        confidence := 3/10 }

/-- Oracle inputs for one run of `verify_with_ai_and_search`: capability
configuration, the extraction call's outcome, one gather slot outcome per
issued search task (indexed in submission order), and the synthesis call's
outcome. -/
structure PipelineEnv where
  geminiConfigured : Bool
  searchConfigured : Bool
  extractResp : GenResponse
  slots : Nat → SlotOutcome
  synthResp : GenResponse

/-- `verify_with_ai_and_search` (src/main.py lines 203-327): extract
claims, gather per-claim search results, synthesize the verdict. -/
def verify_with_ai_and_search (env : PipelineEnv) (text : String) :
    VerdictDict :=
  let claims := extract_key_claims env.geminiConfigured env.extractResp text
  let agg := all_search_results env.searchConfigured env.slots claims
  synthesize env.geminiConfigured env.synthResp agg

/-- Oracle inputs for one run of the `verify_news` endpoint: the pipeline
oracles, an injected-fault flag for an unexpected exception escaping inside
the handler's `try` block, and the wall-clock readings (timestamps and
elapsed seconds are supplied by the environment, on the success and the
failure path respectively). -/
structure OrchestratorEnv where
  pipeline : PipelineEnv
  unexpectedFault : Bool
  okTimestamp : String
  okElapsed : ℚ
  failTimestamp : String
  failElapsed : ℚ

/-- The `verify_news` endpoint body (src/main.py lines 329-365), after
request validation has accepted and trimmed the text.  Every return path
of `verify_with_ai_and_search` sets all five keys the handler reads, so
the `result.get(..., default)` defaults never fire. -/
def verify_news (env : OrchestratorEnv) (text : String) :
    VerificationResponse :=
  if env.unexpectedFault then
    { classification := "Unverifiable"
      reason := Json.str "Service temporarily unavailable due to technical error."
      sources := []
      search_results := []
      confidence := 0
      timestamp := env.failTimestamp
      processing_time := env.failElapsed }
  else
    let result := verify_with_ai_and_search env.pipeline text
    { classification := result.classification
      reason := result.reason
      sources := result.sources
      search_results := result.search_results
      confidence := result.confidence
      timestamp := env.okTimestamp
      processing_time := env.okElapsed }

/-- Spec-side notion used to state the repair claims: whether a model
field value is one of the three valid classification strings. -/
def validClassValue (v : Option Json) : Bool :=
  match v with
  | some (Json.str s) =>
      s == "Verified" || s == "Misinformation" || s == "Unverifiable"
  | _ => false

/-- Spec-side notion used to state the repair claims: whether a model
field value counts as numeric for the code's `isinstance(..., (int, float))`
test.  Python booleans are ints, so JSON booleans count as numeric. -/
def isNumericValue (v : Option Json) : Bool :=
  match v with
  | some (Json.num _) => true
  | some (Json.bool _) => true
  | _ => false

/-! Sample oracle environments used to instantiate theorems with
hypotheses on concrete inputs. -/

def sampleSlots : Nat → SlotOutcome := fun _ => SlotOutcome.exn

def samplePipelineEnv : PipelineEnv :=
  { geminiConfigured := false
    searchConfigured := false
    extractResp := GenResponse.raises
    slots := sampleSlots
    synthResp := GenResponse.raises }

def sampleEnv (fault : Bool) : OrchestratorEnv :=
  { pipeline := samplePipelineEnv
    unexpectedFault := fault
    okTimestamp := "2026-01-01T00:00:00"
    okElapsed := 1
    failTimestamp := "2026-01-01T00:00:01"
    failElapsed := 2 }

/-! Helper lemmas about the repair steps and the synthesizer. -/

theorem repairClassification_mem (v : Option Json) :
    repairClassification v
      ∈ (["Verified", "Misinformation", "Unverifiable"] : List String) := by
  rcases v with _ | j
  · simp [repairClassification]
  · cases j with
    | str s =>
      rw [repairClassification]
      split_ifs with h
      · rcases h with h | h | h <;> simp [h]
      · simp
    | _ => simp [repairClassification]

theorem repairConfidence_nonneg (v : Option Json) : 0 ≤ repairConfidence v := by
  rcases v with _ | j
  · show (0 : ℚ) ≤ 1/2
    norm_num
  · cases j with
    | num q => exact le_max_left 0 _
    | bool b => cases b <;> norm_num [repairConfidence]
    | _ =>
      show (0 : ℚ) ≤ 1/2
      norm_num

theorem repairConfidence_le_one (v : Option Json) : repairConfidence v ≤ 1 := by
  rcases v with _ | j
  · show (1 : ℚ)/2 ≤ 1
    norm_num
  · cases j with
    | num q => exact max_le (by norm_num) (min_le_left 1 q)
    | bool b => cases b <;> norm_num [repairConfidence]
    | _ =>
      show (1 : ℚ)/2 ≤ 1
      norm_num

theorem synthesize_wellformed (g : Bool) (resp : GenResponse)
    (agg : List SearchResult) :
    (synthesize g resp agg).classification
        ∈ (["Verified", "Misinformation", "Unverifiable"] : List String)
    ∧ 0 ≤ (synthesize g resp agg).confidence
    ∧ (synthesize g resp agg).confidence ≤ 1 := by
  cases g with
  | false => refine ⟨by simp [synthesize], by norm_num [synthesize], by norm_num [synthesize]⟩
  | true =>
    cases resp with
    | parsed j =>
      cases j with
      | obj fields =>
        exact ⟨repairClassification_mem _,
          repairConfidence_nonneg _, repairConfidence_le_one _⟩
      | _ =>
        refine ⟨by simp [synthesize], by norm_num [synthesize], by norm_num [synthesize]⟩
    | _ =>
      refine ⟨by simp [synthesize], by norm_num [synthesize], by norm_num [synthesize]⟩

/-- C5: with the generative-text capability not configured, the claim
extractor returns exactly the one-element list holding the full input
text, whatever the (never-issued) call outcome would have been. -/
theorem extract_key_claims_disabled_returns_text (resp : GenResponse)
    (text : String) :
    extract_key_claims false resp text = [Json.str text] := rfl

/-- C9: with the capability configured, a raising extraction call, an
unparsable response, or a response parsing to anything other than a
non-empty JSON list, all make the extractor return the single claim
consisting of the first 200 characters of the input text. -/
theorem extract_key_claims_fallback_truncation (text : String) (j : Json)
    (hj : ∀ l, j = Json.arr l → l = []) :
    extract_key_claims true GenResponse.raises text
        = [Json.str (pyTake 200 text)]
    ∧ extract_key_claims true GenResponse.noText text
        = [Json.str (pyTake 200 text)]
    ∧ extract_key_claims true GenResponse.unparsable text
        = [Json.str (pyTake 200 text)]
    ∧ extract_key_claims true (GenResponse.parsed j) text
        = [Json.str (pyTake 200 text)] := by
  refine ⟨rfl, rfl, rfl, ?_⟩
  cases j with
  | arr l =>
    rw [hj l rfl]
    rfl
  | _ => rfl

theorem extract_key_claims_fallback_truncation_witness :
    extract_key_claims true GenResponse.raises "The Eiffel Tower"
      = [Json.str (pyTake 200 "The Eiffel Tower")] :=
  (extract_key_claims_fallback_truncation "The Eiffel Tower" (Json.str "x")
    (fun _ h => nomatch h)).1

/-- C10: on every synthesizer path the sources list is exactly the list of
links of the returned search results, so both lists have equal length, and
that length never exceeds 5. -/
theorem synthesize_sources_align_search_results (g : Bool)
    (resp : GenResponse) (agg : List SearchResult) :
    (synthesize g resp agg).sources
        = ((synthesize g resp agg).search_results).map SearchResult.link
    ∧ (synthesize g resp agg).sources.length
        = (synthesize g resp agg).search_results.length
    ∧ (synthesize g resp agg).search_results.length ≤ 5 := by
  have hlen : ∀ n, n ≤ 5 → (agg.take n).length ≤ 5 := by
    intro n hn
    calc (agg.take n).length ≤ n := by
          rw [List.length_take]; exact min_le_left n agg.length
      _ ≤ 5 := hn
  cases g with
  | false =>
    exact ⟨rfl, by simp [synthesize], by simpa [synthesize] using hlen 5 le_rfl⟩
  | true =>
    cases resp with
    | parsed j =>
      cases j with
      | obj fields =>
        exact ⟨rfl, by simp [synthesize], by simpa [synthesize] using hlen 5 le_rfl⟩
      | _ =>
        exact ⟨rfl, by simp [synthesize], by simpa [synthesize] using hlen 3 (by norm_num)⟩
    | _ =>
      exact ⟨rfl, by simp [synthesize], by simpa [synthesize] using hlen 3 (by norm_num)⟩

/-- C6: the web evidence retriever is a total function of its oracle (it
never raises); it returns the empty list whenever the credentials are not
configured, whenever the HTTP status is not 200, and whenever the call or
body parse raises; and a result item whose fields cannot be extracted is
skipped while the surrounding items are still returned. -/
theorem search_google_error_contract (o : SearchOutcome) (q : String)
    (n : Nat) (cfg : Bool) (status : Nat) (data : Json)
    (l1 l2 : List Json) (bad : Json) :
    search_google false o q n = []
    ∧ search_google cfg SearchOutcome.raises q n = []
    ∧ (status ≠ 200 →
        search_google cfg (SearchOutcome.httpResponse status data) q n = [])
    ∧ (parseSearchItem bad = none →
        search_google true (SearchOutcome.httpResponse 200
            (Json.obj [("items", Json.arr (l1 ++ bad :: l2))])) q n
          = search_google true (SearchOutcome.httpResponse 200
              (Json.obj [("items", Json.arr (l1 ++ l2))])) q n) := by
  refine ⟨rfl, ?_, ?_, ?_⟩
  · cases cfg <;> rfl
  · intro h
    cases cfg with
    | false => rfl
    | true => simp [search_google, h]
  · intro h
    cases cfg <;>
      simp [search_google, getItems, jLookup, List.filterMap_append, h]

theorem search_google_error_contract_witness :
    search_google true (SearchOutcome.httpResponse 500 Json.null) "q" 5 = []
    ∧ search_google true (SearchOutcome.httpResponse 200
          (Json.obj [("items", Json.arr ([] ++ Json.null :: []))])) "q" 5
        = search_google true (SearchOutcome.httpResponse 200
            (Json.obj [("items", Json.arr ([] ++ ([] : List Json)))])) "q" 5 :=
  ⟨(search_google_error_contract (SearchOutcome.httpResponse 500 Json.null)
      "q" 5 true 500 Json.null [] [] Json.null).2.2.1 (by norm_num),
   (search_google_error_contract (SearchOutcome.httpResponse 500 Json.null)
      "q" 5 true 500 Json.null [] [] Json.null).2.2.2 rfl⟩

/-- C1: for every input text of trimmed length between 10 and 5000 and
every oracle environment — covering the model-success path, both
capability-disabled fallbacks, the parse-failure fallback and the degraded
error path — the endpoint returns a response whose classification is one
of the three valid strings and whose confidence lies in [0, 1]. -/
theorem verify_news_wellformed (env : OrchestratorEnv) (text : String)
    (hlo : 10 ≤ pyLen (pyStrip text)) (hhi : pyLen (pyStrip text) ≤ 5000) :
    (verify_news env text).classification
        ∈ (["Verified", "Misinformation", "Unverifiable"] : List String)
    ∧ 0 ≤ (verify_news env text).confidence
    ∧ (verify_news env text).confidence ≤ 1 := by
  rw [verify_news]
  split_ifs with h
  · exact ⟨by simp, by norm_num, by norm_num⟩
  · exact synthesize_wellformed _ _ _

theorem verify_news_wellformed_witness :
    (10 ≤ pyLen (pyStrip "aaaaaaaaaa") ∧ pyLen (pyStrip "aaaaaaaaaa") ≤ 5000)
    ∧ ((verify_news (sampleEnv false) "aaaaaaaaaa").classification
        ∈ (["Verified", "Misinformation", "Unverifiable"] : List String)
      ∧ 0 ≤ (verify_news (sampleEnv false) "aaaaaaaaaa").confidence
      ∧ (verify_news (sampleEnv false) "aaaaaaaaaa").confidence ≤ 1) :=
  ⟨⟨by decide, by decide⟩,
   verify_news_wellformed (sampleEnv false) "aaaaaaaaaa" (by decide) (by decide)⟩

/-- C2: whenever an unexpected exception escapes inside the handler's
`try` block, the endpoint still returns (no exception reaches the
transport layer) the degraded response: classification `Unverifiable`, the
generic service-error reason, confidence 0, empty sources and
search_results, a timestamp, and the elapsed time the clock measured up to
the failure. -/
theorem verify_news_fault_degraded (env : OrchestratorEnv) (text : String)
    (h : env.unexpectedFault = true) :
    verify_news env text =
      { classification := "Unverifiable"
        reason := Json.str "Service temporarily unavailable due to technical error."
        sources := []
        search_results := []
        confidence := 0
        timestamp := env.failTimestamp
        processing_time := env.failElapsed } := by
  rw [verify_news, if_pos h]

theorem verify_news_fault_degraded_witness :
    (sampleEnv true).unexpectedFault = true
    ∧ verify_news (sampleEnv true) "The Eiffel Tower was built in 1889." =
      { classification := "Unverifiable"
        reason := Json.str "Service temporarily unavailable due to technical error."
        sources := []
        search_results := []
        confidence := 0
        timestamp := (sampleEnv true).failTimestamp
        processing_time := (sampleEnv true).failElapsed } :=
  ⟨rfl, verify_news_fault_degraded (sampleEnv true)
    "The Eiffel Tower was built in 1889." rfl⟩

/-! Claim C3 machinery: the validator checks the lower bound on the
trimmed text but the upper bound on the raw text, so a text whose trimmed
length is within bounds can still be rejected when trailing whitespace
pushes the raw length over 5000. -/

/-- A 5001-character input: 10 letters followed by 4991 spaces.  Its
trimmed length is 10. -/
def c3data : List Char := List.replicate 10 'a' ++ List.replicate 4991 ' '

def c3input : String := String.mk c3data

theorem dropWhile_replicate_of_pos {α : Type} (p : α → Bool) (a : α)
    (h : p a = true) :
    ∀ n, List.dropWhile p (List.replicate n a) = []
  | 0 => rfl
  | n + 1 => by
    rw [List.replicate_succ, List.dropWhile_cons, h]
    simpa using dropWhile_replicate_of_pos p a h n

theorem c3input_len : pyLen c3input = 5001 := by
  rw [pyLen, show c3input.data = c3data from rfl, c3data, List.length_append,
    List.length_replicate, List.length_replicate]

theorem c3input_strip : pyStrip c3input = String.mk (List.replicate 10 'a') := by
  rw [pyStrip, show c3input.data = c3data from rfl, c3data]
  rw [List.replicate_succ, List.cons_append, List.dropWhile_cons]
  rw [if_neg (by decide)]
  rw [← List.cons_append, ← List.replicate_succ]
  rw [List.reverse_append, List.reverse_replicate, List.dropWhile_append]
  rw [dropWhile_replicate_of_pos Char.isWhitespace ' ' (by decide) 4991]
  rw [List.isEmpty_nil, if_pos rfl]
  decide

theorem c3input_strip_len : pyLen (pyStrip c3input) = 10 := by
  rw [c3input_strip]
  decide

theorem c3input_rejected :
    validate_text c3input = Except.error "Text cannot exceed 5000 characters" := by
  have h1 : pyLen (pyStrip c3input) = 10 := c3input_strip_len
  have h2 : pyLen c3input = 5001 := c3input_len
  rw [validate_text]
  split_ifs with hA hB hC
  · exfalso
    rcases hA with h | h
    · rw [h] at h2
      exact absurd h2 (by decide)
    · rw [h] at h1
      exact absurd h1 (by decide)
  · exfalso
    omega
  · rfl
  · exfalso
    omega

/-- C3 counterexample: `c3input` has trimmed length 10 — inside the claimed
acceptance band [10, 5000] — yet the validator rejects it, because the
upper bound is checked on the raw, untrimmed length (5001 > 5000). -/
theorem validate_text_trimmed_bounds_counterexample :
    (10 ≤ pyLen (pyStrip c3input) ∧ pyLen (pyStrip c3input) ≤ 5000)
    ∧ isAccepted c3input = false := by
  refine ⟨⟨?_, ?_⟩, ?_⟩
  · rw [c3input_strip_len]
  · rw [c3input_strip_len]
    norm_num
  · rw [isAccepted, c3input_rejected]

/-- C3 amended: a request text is accepted exactly when its trimmed length
is at least 10 and its raw (untrimmed) length is at most 5000; every text
whose trimmed length is below 10 (in particular empty or whitespace-only
text) is rejected, and every text whose raw length exceeds 5000 —
in particular every text whose trimmed length exceeds 5000 — is
rejected. -/
theorem validate_text_accept_characterization (v : String) :
    isAccepted v = true ↔ 10 ≤ pyLen (pyStrip v) ∧ pyLen v ≤ 5000 := by
  rw [isAccepted, validate_text]
  split_ifs with hA hB hC
  · simp only [Bool.false_eq_true, false_iff]
    intro ⟨h10, _⟩
    have hstrip : pyStrip v = "" := by
      rcases hA with h | h
      · rw [h]
        rfl
      · exact h
    rw [hstrip] at h10
    exact absurd h10 (by decide)
  · simp only [Bool.false_eq_true, false_iff]
    intro ⟨h10, _⟩
    omega
  · simp only [Bool.false_eq_true, false_iff]
    intro ⟨_, h5000⟩
    omega
  · simp only [true_iff]
    exact ⟨by omega, by omega⟩

/-! Claim C4 machinery: the repair path runs only when the model response
parses to a JSON object; a response that parses to any other JSON value
raises on the `result.get` attribute access and takes the technical-failure
fallback (confidence 0.3, first 3 records) instead of the claimed repair
behaviour (confidence default 0.5, first 5 records). -/

theorem repairClassification_invalid (v : Option Json)
    (h : validClassValue v = false) :
    repairClassification v = "Unverifiable" := by
  rcases v with _ | j
  · rfl
  · cases j with
    | str s =>
      simp only [validClassValue, Bool.or_eq_false_iff, beq_eq_false_iff_ne] at h
      rw [repairClassification, if_neg]
      rintro (h1 | h1 | h1)
      · exact h.1.1 h1
      · exact h.1.2 h1
      · exact h.2 h1
    | _ => rfl

theorem repairConfidence_nonnumeric (v : Option Json)
    (h : isNumericValue v = false) :
    repairConfidence v = 1/2 := by
  rcases v with _ | j
  · rfl
  · cases j with
    | num q => exact absurd h (by simp [isNumericValue])
    | bool b => exact absurd h (by simp [isNumericValue])
    | _ => rfl

/-- Four distinct aggregated records, used to exhibit the first-3 versus
first-5 discrepancy of the fallback path. -/
def c4agg : List SearchResult :=
  [{ title := "t1", link := "l1", snippet := "s1", source := "d1" },
   { title := "t2", link := "l2", snippet := "s2", source := "d2" },
   { title := "t3", link := "l3", snippet := "s3", source := "d3" },
   { title := "t4", link := "l4", snippet := "s4", source := "d4" }]

/-- C4 counterexample: the model response parses successfully as JSON (to
the string value `ok`), the emitted confidence is non-numeric (missing),
yet the verdict carries confidence 0.3 — not the claimed 0.5 — and its
sources are the links of the first 3 records, not of the first 5. -/
theorem synthesize_nonobject_parse_counterexample :
    (synthesize true (GenResponse.parsed (Json.str "ok")) c4agg).confidence
        = 3/10
    ∧ ((3 : ℚ)/10 ≠ 1/2)
    ∧ (synthesize true (GenResponse.parsed (Json.str "ok")) c4agg).sources
        = (c4agg.take 3).map SearchResult.link
    ∧ (c4agg.take 3).map SearchResult.link
        ≠ (c4agg.take 5).map SearchResult.link := by
  refine ⟨rfl, by norm_num, rfl, by decide⟩

/-- C4 amended: whenever the synthesizer parses the model response as a
JSON object, the verdict satisfies: a classification value that is not one
of the three valid strings is coerced to `Unverifiable`; a numeric
confidence is clamped into [0, 1] (a JSON boolean counts as numeric, since
the host language treats booleans as integers, and clamps to 1 or 0); a
non-numeric confidence is replaced by 0.5; a missing or empty reason is
replaced by the non-empty default string; and sources and search_results
are the links of, respectively the records of, the first 5 aggregated
records, overriding anything the model emitted. -/
theorem synthesize_object_repair (fields : List (String × Json))
    (agg : List SearchResult) :
    (validClassValue (jLookup fields "classification") = false →
      (synthesize true (GenResponse.parsed (Json.obj fields)) agg).classification
        = "Unverifiable")
    ∧ (∀ q, jLookup fields "confidence" = some (Json.num q) →
      (synthesize true (GenResponse.parsed (Json.obj fields)) agg).confidence
        = max 0 (min 1 q))
    ∧ (∀ b, jLookup fields "confidence" = some (Json.bool b) →
      (synthesize true (GenResponse.parsed (Json.obj fields)) agg).confidence
        = if b then 1 else 0)
    ∧ (isNumericValue (jLookup fields "confidence") = false →
      (synthesize true (GenResponse.parsed (Json.obj fields)) agg).confidence
        = 1/2)
    ∧ ((jLookup fields "reason" = none
        ∨ jLookup fields "reason" = some (Json.str "")) →
      (synthesize true (GenResponse.parsed (Json.obj fields)) agg).reason
        = Json.str defaultReason)
    ∧ defaultReason ≠ ""
    ∧ (synthesize true (GenResponse.parsed (Json.obj fields)) agg).sources
        = (agg.take 5).map SearchResult.link
    ∧ (synthesize true (GenResponse.parsed (Json.obj fields)) agg).search_results
        = agg.take 5 := by
  refine ⟨?_, ?_, ?_, ?_, ?_, by decide, rfl, rfl⟩
  · intro h
    exact repairClassification_invalid _ h
  · intro q hq
    show repairConfidence (jLookup fields "confidence") = _
    rw [hq]
    rfl
  · intro b hb
    show repairConfidence (jLookup fields "confidence") = _
    rw [hb]
    rfl
  · intro h
    exact repairConfidence_nonnumeric _ h
  · rintro (h | h) <;>
      · show repairReason (jLookup fields "reason") = _
        rw [h]
        rfl

/-- Model fields exercising the repair clauses of the amended C4. -/
def c4fields : List (String × Json) :=
  [("classification", Json.str "Bogus"),
   ("confidence", Json.str "high"),
   ("reason", Json.str "")]

theorem synthesize_object_repair_witness :
    (validClassValue (jLookup c4fields "classification") = false
      ∧ (synthesize true (GenResponse.parsed (Json.obj c4fields)) c4agg).classification
          = "Unverifiable")
    ∧ (isNumericValue (jLookup c4fields "confidence") = false
      ∧ (synthesize true (GenResponse.parsed (Json.obj c4fields)) c4agg).confidence
          = 1/2)
    ∧ (synthesize true (GenResponse.parsed (Json.obj c4fields)) c4agg).reason
        = Json.str defaultReason :=
  ⟨⟨rfl, (synthesize_object_repair c4fields c4agg).1 rfl⟩,
   ⟨rfl, (synthesize_object_repair c4fields c4agg).2.2.2.1 rfl⟩,
   (synthesize_object_repair c4fields c4agg).2.2.2.2.1 (Or.inr rfl)⟩

/-- C7: at most the first 3 claims generate search tasks; a claim
generates a task exactly when it is among the first 3 and differs from the
sentinel string; the concrete list from the spec generates exactly the 2
expected tasks; and when no task is generated the aggregated evidence is
empty. -/
theorem searchQueries_aggregation_contract (claims : List Json) (cfg : Bool)
    (slots : Nat → SlotOutcome) (c : Json) :
    (searchQueries claims).length ≤ 3
    ∧ (c ∈ searchQueries claims → c ∈ claims.take 3 ∧ isSentinel c = false)
    ∧ (c ∈ claims.take 3 → isSentinel c = false → c ∈ searchQueries claims)
    ∧ searchQueries [Json.str "Paris is the capital of France",
        Json.str "no verifiable claims", Json.str "X"]
      = [Json.str "Paris is the capital of France", Json.str "X"]
    ∧ (searchQueries claims = [] → all_search_results cfg slots claims = []) := by
  refine ⟨?_, ?_, ?_, ?_, ?_⟩
  · calc (searchQueries claims).length ≤ (claims.take 3).length :=
          List.length_filter_le _ _
      _ ≤ 3 := by
          rw [List.length_take]
          exact min_le_left _ _
  · intro hc
    rw [searchQueries] at hc
    have := List.mem_filter.mp hc
    exact ⟨this.1, by simpa using this.2⟩
  · intro h1 h2
    rw [searchQueries]
    exact List.mem_filter.mpr ⟨h1, by simp [h2]⟩
  · rfl
  · intro h
    rw [all_search_results, h]
    rfl

theorem searchQueries_aggregation_contract_witness :
    Json.str "X" ∈ searchQueries [Json.str "X", Json.str "no verifiable claims"]
    ∧ all_search_results true sampleSlots [] = [] :=
  ⟨(searchQueries_aggregation_contract
      [Json.str "X", Json.str "no verifiable claims"] true sampleSlots
      (Json.str "X")).2.2.1 (List.Mem.head _) rfl,
   (searchQueries_aggregation_contract [] true sampleSlots Json.null).2.2.2.2 rfl⟩

/-- C8: when a gather slot holds an exception object, the aggregated
evidence equals the concatenation, in claim submission order, in which
that slot contributes the empty list while every sibling slot keeps its
own contribution untouched. -/
theorem gather_slot_fault_isolation (cfg : Bool) (slots : Nat → SlotOutcome)
    (claims : List Json) (i : Nat) (hi : slots i = SlotOutcome.exn) :
    all_search_results cfg slots claims
      = (List.range (searchQueries claims).length).flatMap
          (fun j => if j = i then ([] : List SearchResult)
            else slotContribution cfg (slots j)
              (queryOf ((searchQueries claims).getD j Json.null))) := by
  rw [all_search_results]
  congr 1
  funext j
  by_cases hj : j = i
  · subst hj
    rw [if_pos rfl, hi]
    rfl
  · rw [if_neg hj]

theorem gather_slot_fault_isolation_witness :
    sampleSlots 0 = SlotOutcome.exn
    ∧ all_search_results true sampleSlots [Json.str "X"]
        = (List.range (searchQueries [Json.str "X"]).length).flatMap
            (fun j => if j = 0 then ([] : List SearchResult)
              else slotContribution true (sampleSlots j)
                (queryOf ((searchQueries [Json.str "X"]).getD j Json.null))) :=
  ⟨rfl, gather_slot_fault_isolation true sampleSlots [Json.str "X"] 0 rfl⟩

end AGNI
